import Mathlib

/-!
Shallow embedding of the configuration-loading and -sanitization subsystem
of the symiosis note-taking application
(src-tauri/src/utilities/config_helpers.rs, src-tauri/src/commands/config.rs,
src-tauri/src/utilities/mac_focus.rs), together with proofs of the
specification claims about it.

Rust strings become Lean `String`, `usize`/integer fields become `Nat`,
`Vec<&str>` catalogs become `List String`.  The logging sink is embedded by
making every sanitizer return the list of events it emits, in source order.
In-place field mutation is embedded by returning the updated record: each
field's correction in the source reads only that field's prior value, so the
record built at the end is the exact final state of the mutated struct.
-/

/-- A single event sent to the logging sink: category tag, human readable
message, optional detail string (mirrors `log(category, message, detail)`). -/
structure LogEvent where
  category : String
  message : String
  detail : Option String
deriving Repr, DecidableEq

/-- An event with the fixed category tag used by every per-field correction. -/
def validationEvent (msg : String) : LogEvent :=
  { category := "CONFIG_VALIDATION", message := msg, detail := none }

/-- The single event logged on a parse failure, carrying the decode error
detail (mirrors the `log("CONFIG_PARSE", ..., Some(&e.to_string()))` call). -/
def parseEvent (detail : String) : LogEvent :=
  { category := "CONFIG_PARSE"
    message := "Failed to parse config TOML. Using defaults."
    detail := some detail }

/-- The `interface` section of the configuration (InterfaceConfig). -/
structure InterfaceConfig where
  ui_theme : String
  markdown_render_theme : String
  md_render_code_theme : String
  font_size : Nat
  editor_font_size : Nat
deriving Repr, DecidableEq

/-- The `editor` section of the configuration (EditorConfig). -/
structure EditorConfig where
  mode : String
  theme : String
  tab_size : Nat
deriving Repr, DecidableEq

/-- The `shortcuts` section: the 22 per-action shortcut fields (ShortcutsConfig). -/
structure ShortcutsConfig where
  create_note : String
  rename_note : String
  delete_note : String
  edit_note : String
  save_and_exit : String
  open_external : String
  open_folder : String
  refresh_cache : String
  scroll_up : String
  scroll_down : String
  up : String
  down : String
  navigate_previous : String
  navigate_next : String
  navigate_code_previous : String
  navigate_code_next : String
  navigate_link_previous : String
  navigate_link_next : String
  copy_current_section : String
  open_settings : String
  version_explorer : String
  recently_deleted : String
deriving Repr, DecidableEq

/-- The `preferences` section of the configuration (PreferencesConfig). -/
structure PreferencesConfig where
  max_search_results : Nat
deriving Repr, DecidableEq

/-- The root configuration aggregate (AppConfig). -/
structure AppConfig where
  notes_directory : String
  global_shortcut : String
  interface : InterfaceConfig
  editor : EditorConfig
  shortcuts : ShortcutsConfig
  preferences : PreferencesConfig
deriving Repr, DecidableEq

/-! ## Domain catalogs (config_helpers.rs lines 24-93) -/

/-- Catalog `get_available_ui_themes` from config_helpers.rs. -/
def get_available_ui_themes : List String :=
  ["gruvbox-dark", "article", "modern-dark"]

/-- Catalog `get_available_markdown_themes` from config_helpers.rs. -/
def get_available_markdown_themes : List String :=
  ["modern-dark", "article", "gruvbox-dark"]

/-- Catalog `get_available_editor_modes` from config_helpers.rs. -/
def get_available_editor_modes : List String :=
  ["basic", "vim", "emacs"]

/-- Catalog `get_available_editor_themes` from config_helpers.rs. -/
def get_available_editor_themes : List String :=
  ["abcdef", "abyss", "android-studio", "andromeda", "basic-dark",
   "basic-light", "forest", "github-dark", "github-light", "gruvbox-dark",
   "gruvbox-light", "material-dark", "material-light", "monokai", "nord",
   "palenight", "solarized-dark", "solarized-light", "tokyo-night-day",
   "tokyo-night-storm", "volcano", "vscode-dark", "vscode-light"]

/-- Catalog `get_available_code_themes` from config_helpers.rs. -/
def get_available_code_themes : List String :=
  ["gruvbox-dark-hard", "gruvbox-dark-medium", "gruvbox-dark-soft",
   "gruvbox-light-hard", "gruvbox-light-medium", "atom-one-dark", "dracula",
   "nord", "monokai", "github-dark", "vs2015", "night-owl",
   "tokyo-night-dark", "atom-one-light", "github", "vs", "xcode",
   "tokyo-night-light"]

/-! ## Validators

The module `utilities/validation.rs` is not part of the provided sources;
only its callers are.  The validators below are therefore modelled from the
specification (section 4.1). -/

/-- Split a character list on the shortcut separator character. -/
def splitPlus : List Char → List (List Char)
  | [] => [[]]
  | c :: cs =>
    match splitPlus cs with
    | [] => if c = Char.ofNat 43 then [[], []] else [[c]]
    | p :: ps => if c = Char.ofNat 43 then [] :: p :: ps else (c :: p) :: ps

/-- The modifier-key names of the shortcut grammar, lower case. -/
def modifierNames : List (List Char) :=
  ["ctrl", "control", "shift", "alt", "option", "cmd", "command",
   "super", "meta"].map String.data

/-- Whether one part of a key combo names a modifier key, case-insensitively. -/
def isModifierPart (part : List Char) : Bool :=
  modifierNames.contains (part.map Char.toLower)

/-- Modelled from the spec: `validate_basic_shortcut_format` from
utilities/validation.rs (not under the provided sources).  The looser grammar
check used for the 22 per-action shortcuts: the combo splits on the separator
into non-empty parts and is terminated by one non-modifier key; it is more
permissive than the full validator about the leading modifier parts.
Rejects the empty string.  Returns `true` for acceptance (`Ok`). -/
def validate_basic_shortcut_format (s : String) : Bool :=
  let parts := splitPlus s.data
  match parts.getLast? with
  | none => false
  | some last => parts.all (fun p => !p.isEmpty) && !isModifierPart last

/-- Modelled from the spec: `validate_shortcut_format` from
utilities/validation.rs (not under the provided sources).  The full key-combo
grammar: modifier keys joined by the separator, terminated by exactly one
non-modifier key, case-insensitively; rejects empty or malformed combos.
Returns `true` for acceptance (`Ok`). -/
def validate_shortcut_format (s : String) : Bool :=
  let parts := splitPlus s.data
  match parts.getLast? with
  | none => false
  | some last =>
    parts.all (fun p => !p.isEmpty) && !isModifierPart last &&
      parts.dropLast.all isModifierPart

/-- Whether a character is illegal in file system paths (modelling choice:
the NUL character). -/
def illegalPathChar (c : Char) : Bool := c = Char.ofNat 0

/-- Modelled from the spec: `validate_notes_directory` from
utilities/validation.rs (not under the provided sources).  Rejects empty
strings, strings containing a parent-directory traversal sequence, strings
whose leading character is a dot, strings exceeding a maximum length
(modelling choice: 255 characters), and strings containing characters illegal
in file system paths.  Returns `true` for acceptance (`Ok`). -/
def hasParentTraversal : List Char → Bool
  | [] => false
  | [_] => false
  | a :: b :: rest =>
    (a = Char.ofNat 46 && b = Char.ofNat 46) || hasParentTraversal (b :: rest)

/-- Whether a character list starts with a dot. -/
def startsWithDot : List Char → Bool
  | [] => false
  | c :: _ => c = Char.ofNat 46

/-- Modelled from the spec: the path-safety validator
`validate_notes_directory` (see `hasParentTraversal`). -/
def validate_notes_directory (s : String) : Bool :=
  !s.data.isEmpty && !hasParentTraversal s.data && !startsWithDot s.data &&
    decide (s.data.length ≤ 255) && !s.data.any illegalPathChar

/-- Modelled from the spec: `validate_font_size` from
utilities/validation.rs (not under the provided sources).  Accepts an integer
within the fixed inclusive range 8-72; the label argument is used only in the
rejection message of the source and does not affect the verdict.  Returns
`true` for acceptance (`Ok`). -/
def validate_font_size (size : Nat) (_label : String) : Bool :=
  decide (8 ≤ size ∧ size ≤ 72)

/-! ## Defaults

`AppConfig::default()` lives in the `config` module, which is not part of the
provided sources; `default_max_results` (100) and `default_global_shortcut`
("Ctrl+Shift+N") are in config_helpers.rs. -/

/-- Constant `default_max_results` from config_helpers.rs. -/
def default_max_results : Nat := 100

/-- Constant `default_global_shortcut` from config_helpers.rs. -/
def default_global_shortcut : String := "Ctrl+Shift+N"

/-- Constant `default_window_decorations` from config_helpers.rs. -/
def default_window_decorations : Bool := true

/-- Modelled from the spec: the default `InterfaceConfig` (part of
`AppConfig::default()`, whose source is not provided; the spec states the
default instance is valid, so each field is a catalog member / in range). -/
def InterfaceConfig.default : InterfaceConfig :=
  { ui_theme := "gruvbox-dark"
    markdown_render_theme := "modern-dark"
    md_render_code_theme := "gruvbox-dark-hard"
    font_size := 14
    editor_font_size := 14 }

/-- Modelled from the spec: the default `EditorConfig`. -/
def EditorConfig.default : EditorConfig :=
  { mode := "basic", theme := "gruvbox-dark", tab_size := 4 }

/-- Modelled from the spec: the default `ShortcutsConfig` — each of the 22
per-action shortcuts has its individual default key combo, each accepted by
the basic shortcut validator. -/
def ShortcutsConfig.default : ShortcutsConfig :=
  { create_note := "Ctrl+N"
    rename_note := "Ctrl+M"
    delete_note := "Ctrl+X"
    edit_note := "Enter"
    save_and_exit := "Ctrl+S"
    open_external := "Ctrl+O"
    open_folder := "Ctrl+F"
    refresh_cache := "Ctrl+R"
    scroll_up := "Ctrl+U"
    scroll_down := "Ctrl+D"
    up := "Ctrl+K"
    down := "Ctrl+J"
    navigate_previous := "Ctrl+P"
    navigate_next := "Ctrl+Shift+P"
    navigate_code_previous := "Ctrl+Alt+H"
    navigate_code_next := "Ctrl+Alt+L"
    navigate_link_previous := "Ctrl+H"
    navigate_link_next := "Ctrl+L"
    copy_current_section := "Ctrl+Y"
    open_settings := "Ctrl+Comma"
    version_explorer := "Ctrl+E"
    recently_deleted := "Ctrl+Shift+R" }

/-- Modelled from the spec: the default `PreferencesConfig`, wired to
`default_max_results` from config_helpers.rs. -/
def PreferencesConfig.default : PreferencesConfig :=
  { max_search_results := default_max_results }

/-- Modelled from the spec: `AppConfig::default()` — the canonical default
instance, the sole source of replacement values during sanitization.
`global_shortcut` is wired to `default_global_shortcut` from
config_helpers.rs. -/
def AppConfig.default : AppConfig :=
  { notes_directory := "Documents/Notes"
    global_shortcut := default_global_shortcut
    interface := InterfaceConfig.default
    editor := EditorConfig.default
    shortcuts := ShortcutsConfig.default
    preferences := PreferencesConfig.default }

/-! ## The sanitizer (config_helpers.rs lines 112-291)

Every correction in the source follows one pattern: test the field, and if
the test fails, log one `CONFIG_VALIDATION` event and overwrite the field
with the corresponding default.  `correct` is that pattern; each sanitizer
applies it to its fields in source order.  The source mutates the struct in
place, but no correction reads another field, so returning the rebuilt
record together with the concatenated events in source order is a faithful
embedding of the mutation and of the log stream. -/

/-- One per-field correction step: if `bad` holds of the current value,
emit the given event and substitute the default, otherwise keep the value
and emit nothing. -/
def correct {α : Type} (bad : α → Bool) (dflt v : α) (ev : LogEvent) :
    α × List LogEvent :=
  if bad v then (dflt, [ev]) else (v, [])

/-- Embeds `sanitize_interface_config` from config_helpers.rs (lines 145-202). -/
def sanitize_interface_config (config defaults : InterfaceConfig) :
    InterfaceConfig × List LogEvent :=
  let r1 := correct (fun v => !get_available_ui_themes.contains v)
    defaults.ui_theme config.ui_theme
    (validationEvent ("Invalid ui_theme " ++ config.ui_theme ++ ". Using default."))
  let r2 := correct (fun v => !get_available_markdown_themes.contains v)
    defaults.markdown_render_theme config.markdown_render_theme
    (validationEvent ("Invalid markdown_render_theme " ++
      config.markdown_render_theme ++ ". Using default."))
  let r3 := correct (fun v => !get_available_code_themes.contains v)
    defaults.md_render_code_theme config.md_render_code_theme
    (validationEvent ("Invalid md_render_code_theme " ++
      config.md_render_code_theme ++ ". Using default."))
  let r4 := correct (fun v => !validate_font_size v "UI font size")
    defaults.font_size config.font_size
    (validationEvent ("Invalid font_size " ++ toString config.font_size ++
      ". Using default " ++ toString defaults.font_size ++ "."))
  let r5 := correct (fun v => !validate_font_size v "Editor font size")
    defaults.editor_font_size config.editor_font_size
    (validationEvent ("Invalid editor_font_size " ++
      toString config.editor_font_size ++ ". Using default " ++
      toString defaults.editor_font_size ++ "."))
  (⟨r1.1, r2.1, r3.1, r4.1, r5.1⟩, r1.2 ++ r2.2 ++ r3.2 ++ r4.2 ++ r5.2)

/-- Embeds `sanitize_editor_config` from config_helpers.rs (lines 204-234). -/
def sanitize_editor_config (config defaults : EditorConfig) :
    EditorConfig × List LogEvent :=
  let r1 := correct (fun v => !get_available_editor_modes.contains v)
    defaults.mode config.mode
    (validationEvent ("Invalid editor mode " ++ config.mode ++ ". Using default."))
  let r2 := correct (fun v => !get_available_editor_themes.contains v)
    defaults.theme config.theme
    (validationEvent ("Invalid editor theme " ++ config.theme ++ ". Using default."))
  let r3 := correct (fun v => decide (v = 0 ∨ 16 < v))
    defaults.tab_size config.tab_size
    (validationEvent ("Invalid tab_size " ++ toString config.tab_size ++
      ". Using default " ++ toString defaults.tab_size ++ "."))
  (⟨r1.1, r2.1, r3.1⟩, r1.2 ++ r2.2 ++ r3.2)

/-- The body of the `sanitize_shortcut!` macro of `sanitize_shortcuts_config`
(config_helpers.rs lines 237-253): the one generic correction routine applied
uniformly to each of the 22 per-action shortcut fields. -/
def sanitize_shortcut_field (value dflt fieldName : String) :
    String × List LogEvent :=
  correct (fun v => !validate_basic_shortcut_format v) dflt value
    (validationEvent ("Invalid shortcut " ++ value ++ " for " ++ fieldName ++
      ". Using default " ++ dflt ++ "."))

/-- Embeds `sanitize_shortcuts_config` from config_helpers.rs (lines 236-277): the
macro expanded over the 22 fields in source order. -/
def sanitize_shortcuts_config (config defaults : ShortcutsConfig) :
    ShortcutsConfig × List LogEvent :=
  let r1 := sanitize_shortcut_field config.create_note defaults.create_note "create_note"
  let r2 := sanitize_shortcut_field config.rename_note defaults.rename_note "rename_note"
  let r3 := sanitize_shortcut_field config.delete_note defaults.delete_note "delete_note"
  let r4 := sanitize_shortcut_field config.edit_note defaults.edit_note "edit_note"
  let r5 := sanitize_shortcut_field config.save_and_exit defaults.save_and_exit "save_and_exit"
  let r6 := sanitize_shortcut_field config.open_external defaults.open_external "open_external"
  let r7 := sanitize_shortcut_field config.open_folder defaults.open_folder "open_folder"
  let r8 := sanitize_shortcut_field config.refresh_cache defaults.refresh_cache "refresh_cache"
  let r9 := sanitize_shortcut_field config.scroll_up defaults.scroll_up "scroll_up"
  let r10 := sanitize_shortcut_field config.scroll_down defaults.scroll_down "scroll_down"
  let r11 := sanitize_shortcut_field config.up defaults.up "up"
  let r12 := sanitize_shortcut_field config.down defaults.down "down"
  let r13 := sanitize_shortcut_field config.navigate_previous defaults.navigate_previous "navigate_previous"
  let r14 := sanitize_shortcut_field config.navigate_next defaults.navigate_next "navigate_next"
  let r15 := sanitize_shortcut_field config.navigate_code_previous defaults.navigate_code_previous "navigate_code_previous"
  let r16 := sanitize_shortcut_field config.navigate_code_next defaults.navigate_code_next "navigate_code_next"
  let r17 := sanitize_shortcut_field config.navigate_link_previous defaults.navigate_link_previous "navigate_link_previous"
  let r18 := sanitize_shortcut_field config.navigate_link_next defaults.navigate_link_next "navigate_link_next"
  let r19 := sanitize_shortcut_field config.copy_current_section defaults.copy_current_section "copy_current_section"
  let r20 := sanitize_shortcut_field config.open_settings defaults.open_settings "open_settings"
  let r21 := sanitize_shortcut_field config.version_explorer defaults.version_explorer "version_explorer"
  let r22 := sanitize_shortcut_field config.recently_deleted defaults.recently_deleted "recently_deleted"
  (⟨r1.1, r2.1, r3.1, r4.1, r5.1, r6.1, r7.1, r8.1, r9.1, r10.1, r11.1,
    r12.1, r13.1, r14.1, r15.1, r16.1, r17.1, r18.1, r19.1, r20.1, r21.1,
    r22.1⟩,
   r1.2 ++ r2.2 ++ r3.2 ++ r4.2 ++ r5.2 ++ r6.2 ++ r7.2 ++ r8.2 ++ r9.2 ++
   r10.2 ++ r11.2 ++ r12.2 ++ r13.2 ++ r14.2 ++ r15.2 ++ r16.2 ++ r17.2 ++
   r18.2 ++ r19.2 ++ r20.2 ++ r21.2 ++ r22.2)

/-- Embeds `sanitize_preferences_config` from config_helpers.rs (lines 279-291). -/
def sanitize_preferences_config (config defaults : PreferencesConfig) :
    PreferencesConfig × List LogEvent :=
  let r1 := correct (fun v => decide (v = 0 ∨ 10000 < v))
    defaults.max_search_results config.max_search_results
    (validationEvent ("Invalid max_search_results " ++
      toString config.max_search_results ++ ". Using default " ++
      toString defaults.max_search_results ++ "."))
  (⟨r1.1⟩, r1.2)

/-- Embeds `sanitize_config` from config_helpers.rs (lines 112-143): corrects the
two top-level fields, then the four sections, in source order, with
`AppConfig::default()` as the sole source of replacement values.  It is
total: there is no error return. -/
def sanitize_config (config : AppConfig) : AppConfig × List LogEvent :=
  let defaults := AppConfig.default
  let r1 := correct (fun v => !validate_notes_directory v)
    defaults.notes_directory config.notes_directory
    (validationEvent ("Invalid notes_directory " ++ config.notes_directory ++
      ". Using default."))
  let r2 := correct (fun v => !validate_shortcut_format v)
    defaults.global_shortcut config.global_shortcut
    (validationEvent ("Invalid global_shortcut " ++ config.global_shortcut ++
      ". Using default."))
  let ri := sanitize_interface_config config.interface defaults.interface
  let re := sanitize_editor_config config.editor defaults.editor
  let rs := sanitize_shortcuts_config config.shortcuts defaults.shortcuts
  let rp := sanitize_preferences_config config.preferences defaults.preferences
  (⟨r1.1, r2.1, ri.1, re.1, rs.1, rp.1⟩,
   r1.2 ++ r2.2 ++ ri.2 ++ re.2 ++ rs.2 ++ rp.2)

/-! ## The parser (config_helpers.rs lines 95-110)

`toml::from_str` is an external crate; it is embedded as an explicit
`decode` argument returning either the decoded `AppConfig` or the error
detail string. -/

/-- Embeds `load_config_from_content` from config_helpers.rs: on successful decode,
sanitize the decoded instance in place and return it; on decode failure, log
one `CONFIG_PARSE` event carrying the error detail and return
`AppConfig::default()`.  Total: it never returns an error. -/
def load_config_from_content (decode : String → Except String AppConfig)
    (content : String) : AppConfig × List LogEvent :=
  match decode content with
  | Except.ok config => sanitize_config config
  | Except.error e => (AppConfig.default, [parseEvent e])

/-! ## Accessors (commands/config.rs) -/

/-- Modelled from the spec: `generate_config_template` (its source, in the
`config` module, is not provided) — a textual template reflecting the
default configuration, used only when no configuration file exists. -/
def generate_config_template : String :=
  "notes_directory = Documents/Notes (template reflecting defaults)"

/-- Embeds `get_config_content` from commands/config.rs: the file-system read
outcome (`fs::read_to_string`) is an explicit argument, either the raw
on-disk text or an I/O error.  Returns the raw text when the read succeeds,
otherwise a freshly generated template; never the error variant. -/
def get_config_content (readResult : Except String String) :
    Except String String :=
  match readResult with
  | Except.ok content => Except.ok content
  | Except.error _ => Except.ok generate_config_template

/-! ## Focus helper (utilities/mac_focus.rs lines 30-62)

`save_current_frontmost_app` queries the OS for the frontmost application
and conditionally updates the `PREV_PID` cell.  The OS query result and the
current process id are explicit arguments; the cell is the explicit state
(`none` = empty, matching its documented initialization).  Lock poisoning is
recovered by extracting the inner value, so the cell value itself is the
whole state. -/

/-- Embeds `save_current_frontmost_app` as a transition on the `PREV_PID` cell:
if the OS reports no frontmost application, return early leaving the cell
unchanged; otherwise overwrite the cell with the frontmost PID only when it
differs from this process's own PID, else preserve the existing value. -/
def save_current_frontmost_app (prev_pid : Option Int)
    (frontmost_pid : Option Int) (our_pid : Int) : Option Int :=
  match frontmost_pid with
  | none => prev_pid
  | some pid => if pid ≠ our_pid then some pid else prev_pid

/-! ## Validity predicates

The post-sanitization invariants of spec section 3, stated with the source's
own catalogs and validators. -/

/-- Every interface field is a catalog member / in range. -/
def InterfaceConfig.valid (c : InterfaceConfig) : Bool :=
  get_available_ui_themes.contains c.ui_theme &&
  get_available_markdown_themes.contains c.markdown_render_theme &&
  get_available_code_themes.contains c.md_render_code_theme &&
  validate_font_size c.font_size "UI font size" &&
  validate_font_size c.editor_font_size "Editor font size"

/-- Editor mode and theme are catalog members, tab size is in 1-16. -/
def EditorConfig.valid (c : EditorConfig) : Bool :=
  get_available_editor_modes.contains c.mode &&
  get_available_editor_themes.contains c.theme &&
  decide (1 ≤ c.tab_size ∧ c.tab_size ≤ 16)

/-- Each of the 22 shortcut fields passes the basic shortcut validator. -/
def ShortcutsConfig.valid (c : ShortcutsConfig) : Bool :=
  validate_basic_shortcut_format c.create_note &&
  validate_basic_shortcut_format c.rename_note &&
  validate_basic_shortcut_format c.delete_note &&
  validate_basic_shortcut_format c.edit_note &&
  validate_basic_shortcut_format c.save_and_exit &&
  validate_basic_shortcut_format c.open_external &&
  validate_basic_shortcut_format c.open_folder &&
  validate_basic_shortcut_format c.refresh_cache &&
  validate_basic_shortcut_format c.scroll_up &&
  validate_basic_shortcut_format c.scroll_down &&
  validate_basic_shortcut_format c.up &&
  validate_basic_shortcut_format c.down &&
  validate_basic_shortcut_format c.navigate_previous &&
  validate_basic_shortcut_format c.navigate_next &&
  validate_basic_shortcut_format c.navigate_code_previous &&
  validate_basic_shortcut_format c.navigate_code_next &&
  validate_basic_shortcut_format c.navigate_link_previous &&
  validate_basic_shortcut_format c.navigate_link_next &&
  validate_basic_shortcut_format c.copy_current_section &&
  validate_basic_shortcut_format c.open_settings &&
  validate_basic_shortcut_format c.version_explorer &&
  validate_basic_shortcut_format c.recently_deleted

/-- The search-result bound is in 1-10000. -/
def PreferencesConfig.valid (c : PreferencesConfig) : Bool :=
  decide (1 ≤ c.max_search_results ∧ c.max_search_results ≤ 10000)

/-- All post-sanitization invariants of the whole configuration. -/
def AppConfig.valid (c : AppConfig) : Bool :=
  validate_notes_directory c.notes_directory &&
  validate_shortcut_format c.global_shortcut &&
  c.interface.valid && c.editor.valid && c.shortcuts.valid &&
  c.preferences.valid

/-! ## Concrete inputs used by the claim instances -/

/-- A shortcuts section with all 22 per-action fields set to the empty
string. -/
def allEmptyShortcuts : ShortcutsConfig :=
  ⟨"", "", "", "", "", "", "", "", "", "", "", "", "", "", "", "", "", "",
   "", "", "", ""⟩

/-- The default configuration with every per-action shortcut emptied. -/
def allEmptyShortcutsConfig : AppConfig :=
  { AppConfig.default with shortcuts := allEmptyShortcuts }

/-- The default configuration corrupted with `tab_size = 0` (a structurally
well-typed but domain-invalid instance, as a decoder could produce). -/
def invalidTabConfig : AppConfig :=
  { AppConfig.default with
    editor := { AppConfig.default.editor with tab_size := 0 } }

/-! ## Generic facts about the per-field correction step -/

/-- The corrected value with a negated-predicate test: keep the value when
the predicate accepts it, else substitute the default. -/
theorem correct_fst_not {α : Type} (P : α → Bool) (d v : α) (ev : LogEvent) :
    (correct (fun x => !P x) d v ev).fst = if P v then v else d := by
  cases h : P v <;> simp [correct, h]

/-- The corrected value with a decidable out-of-range test: substitute the
default exactly when the value is out of range. -/
theorem correct_fst_prop {α : Type} (p : α → Prop) [DecidablePred p]
    (d v : α) (ev : LogEvent) :
    (correct (fun x => decide (p x)) d v ev).fst = if p v then d else v := by
  by_cases h : p v <;> simp [correct, h]

/-- If the default satisfies `P` and passing the `bad` test implies `P`,
the corrected value satisfies `P`. -/
theorem correct_valid {α : Type} (P : α → Bool) {bad : α → Bool} (d v : α)
    (ev : LogEvent) (hd : P d = true) (h : ∀ x, bad x = false → P x = true) :
    P (correct bad d v ev).fst = true := by
  unfold correct; split
  · exact hd
  · next hb => exact h v (by simp_all)

/-- Rejection of the negation of `P` means acceptance by `P`. -/
theorem notP_bridge {α : Type} (P : α → Bool) :
    ∀ x, (!P x) = false → P x = true := by intro x hx; simpa using hx

/-- A value passing the `bad` test is kept unchanged by the correction. -/
theorem correct_fst_of_good {α : Type} {bad : α → Bool} {v : α} (d : α)
    (ev : LogEvent) (h : bad v = false) : (correct bad d v ev).fst = v := by
  simp [correct, h]

/-! ## The sanitized configuration satisfies every invariant -/

/-- Sanitizing any interface section against the default yields a valid
interface section. -/
theorem interface_sanitize_valid (c : InterfaceConfig) :
    (sanitize_interface_config c InterfaceConfig.default).fst.valid = true := by
  unfold sanitize_interface_config InterfaceConfig.valid
  simp only [Bool.and_eq_true]
  exact ⟨⟨⟨⟨correct_valid (fun v => get_available_ui_themes.contains v) _ _ _
            (by decide) (notP_bridge _),
      correct_valid (fun v => get_available_markdown_themes.contains v) _ _ _
            (by decide) (notP_bridge _)⟩,
      correct_valid (fun v => get_available_code_themes.contains v) _ _ _
            (by decide) (notP_bridge _)⟩,
      correct_valid (fun v => validate_font_size v "UI font size") _ _ _
            (by decide) (notP_bridge _)⟩,
      correct_valid (fun v => validate_font_size v "Editor font size") _ _ _
            (by decide) (notP_bridge _)⟩

/-- Sanitizing any editor section against the default yields a valid editor
section. -/
theorem editor_sanitize_valid (c : EditorConfig) :
    (sanitize_editor_config c EditorConfig.default).fst.valid = true := by
  unfold sanitize_editor_config EditorConfig.valid
  simp only [Bool.and_eq_true]
  refine ⟨⟨correct_valid (fun v => get_available_editor_modes.contains v) _ _ _
            (by decide) (notP_bridge _),
      correct_valid (fun v => get_available_editor_themes.contains v) _ _ _
            (by decide) (notP_bridge _)⟩,
      correct_valid (fun v => decide (1 ≤ v ∧ v ≤ 16)) _ _ _
            (by decide) ?_⟩
  intro x hx
  simp at hx ⊢
  omega

/-- The generic shortcut correction yields a value accepted by the basic
shortcut validator whenever the default is. -/
theorem shortcut_field_valid (v d n : String)
    (hd : validate_basic_shortcut_format d = true) :
    validate_basic_shortcut_format (sanitize_shortcut_field v d n).fst = true := by
  unfold sanitize_shortcut_field
  exact correct_valid (fun x => validate_basic_shortcut_format x) _ _ _ hd
    (notP_bridge _)

/-- Sanitizing any shortcuts section against the default yields a valid
shortcuts section. -/
theorem shortcuts_sanitize_valid (c : ShortcutsConfig) :
    (sanitize_shortcuts_config c ShortcutsConfig.default).fst.valid = true := by
  unfold sanitize_shortcuts_config ShortcutsConfig.valid
  simp only [Bool.and_eq_true]
  repeat' apply And.intro
  all_goals exact shortcut_field_valid _ _ _ (by decide)

/-- Sanitizing any preferences section against the default yields a valid
preferences section. -/
theorem preferences_sanitize_valid (c : PreferencesConfig) :
    (sanitize_preferences_config c PreferencesConfig.default).fst.valid = true := by
  unfold sanitize_preferences_config PreferencesConfig.valid
  refine correct_valid (fun v => decide (1 ≤ v ∧ v ≤ 10000)) _ _ _ (by decide) ?_
  intro x hx
  simp at hx ⊢
  omega

/-- Sanitizing any configuration yields a configuration satisfying every
post-sanitization invariant. -/
theorem sanitize_config_valid_aux (c : AppConfig) :
    (sanitize_config c).fst.valid = true := by
  unfold sanitize_config AppConfig.valid
  simp only [Bool.and_eq_true]
  refine ⟨⟨⟨⟨⟨correct_valid (fun v => validate_notes_directory v) _ _ _
            (by decide) (notP_bridge _),
      correct_valid (fun v => validate_shortcut_format v) _ _ _
            (by decide) (notP_bridge _)⟩,
      interface_sanitize_valid _⟩, editor_sanitize_valid _⟩,
      shortcuts_sanitize_valid _⟩, preferences_sanitize_valid _⟩

/-! ## A valid configuration is left unchanged -/

/-- An already-valid interface section is returned unchanged. -/
theorem interface_sanitize_of_valid (c : InterfaceConfig) (d : InterfaceConfig)
    (h : c.valid = true) : (sanitize_interface_config c d).fst = c := by
  obtain ⟨f1, f2, f3, f4, f5⟩ := c
  unfold InterfaceConfig.valid at h
  simp only [Bool.and_eq_true] at h
  obtain ⟨⟨⟨⟨h1, h2⟩, h3⟩, h4⟩, h5⟩ := h
  unfold sanitize_interface_config
  simp only [InterfaceConfig.mk.injEq]
  refine ⟨?_, ?_, ?_, ?_, ?_⟩ <;> apply correct_fst_of_good <;> simp_all

/-- An already-valid editor section is returned unchanged. -/
theorem editor_sanitize_of_valid (c : EditorConfig) (d : EditorConfig)
    (h : c.valid = true) : (sanitize_editor_config c d).fst = c := by
  obtain ⟨f1, f2, f3⟩ := c
  unfold EditorConfig.valid at h
  simp only [Bool.and_eq_true] at h
  obtain ⟨⟨h1, h2⟩, h3⟩ := h
  unfold sanitize_editor_config
  simp only [EditorConfig.mk.injEq]
  refine ⟨?_, ?_, ?_⟩
  · apply correct_fst_of_good; simp_all
  · apply correct_fst_of_good; simp_all
  · apply correct_fst_of_good; simp_all; omega

/-- A shortcut accepted by the basic validator is kept unchanged. -/
theorem shortcut_field_of_valid {v : String} (d n : String)
    (h : validate_basic_shortcut_format v = true) :
    (sanitize_shortcut_field v d n).fst = v := by
  unfold sanitize_shortcut_field
  apply correct_fst_of_good
  simp [h]

/-- An already-valid shortcuts section is returned unchanged. -/
theorem shortcuts_sanitize_of_valid (c : ShortcutsConfig) (d : ShortcutsConfig)
    (h : c.valid = true) : (sanitize_shortcuts_config c d).fst = c := by
  obtain ⟨s1, s2, s3, s4, s5, s6, s7, s8, s9, s10, s11, s12, s13, s14, s15,
    s16, s17, s18, s19, s20, s21, s22⟩ := c
  unfold ShortcutsConfig.valid at h
  simp only [Bool.and_eq_true] at h
  obtain ⟨⟨⟨⟨⟨⟨⟨⟨⟨⟨⟨⟨⟨⟨⟨⟨⟨⟨⟨⟨⟨h1, h2⟩, h3⟩, h4⟩, h5⟩, h6⟩, h7⟩, h8⟩, h9⟩,
    h10⟩, h11⟩, h12⟩, h13⟩, h14⟩, h15⟩, h16⟩, h17⟩, h18⟩, h19⟩, h20⟩, h21⟩,
    h22⟩ := h
  unfold sanitize_shortcuts_config
  simp only [ShortcutsConfig.mk.injEq]
  repeat' apply And.intro
  all_goals apply shortcut_field_of_valid <;> assumption

/-- An already-valid preferences section is returned unchanged. -/
theorem preferences_sanitize_of_valid (c : PreferencesConfig)
    (d : PreferencesConfig) (h : c.valid = true) :
    (sanitize_preferences_config c d).fst = c := by
  obtain ⟨f1⟩ := c
  unfold PreferencesConfig.valid at h
  unfold sanitize_preferences_config
  simp only [PreferencesConfig.mk.injEq]
  apply correct_fst_of_good
  simp_all
  omega

/-- An already-valid configuration is returned unchanged by sanitization. -/
theorem config_sanitize_of_valid (c : AppConfig) (h : c.valid = true) :
    (sanitize_config c).fst = c := by
  obtain ⟨nd, gs, ci, ce, cs, cp⟩ := c
  unfold AppConfig.valid at h
  simp only [Bool.and_eq_true] at h
  obtain ⟨⟨⟨⟨⟨h1, h2⟩, h3⟩, h4⟩, h5⟩, h6⟩ := h
  unfold sanitize_config
  simp only [AppConfig.mk.injEq]
  refine ⟨?_, ?_, ?_, ?_, ?_, ?_⟩
  · apply correct_fst_of_good; simp_all
  · apply correct_fst_of_good; simp_all
  · exact interface_sanitize_of_valid _ _ h3
  · exact editor_sanitize_of_valid _ _ h4
  · exact shortcuts_sanitize_of_valid _ _ h5
  · exact preferences_sanitize_of_valid _ _ h6

/-! ## Claim theorems -/

/-- C1: for every AppConfig value, the result of `sanitize_config` satisfies
all post-sanitization invariants — every catalog-bound field (ui_theme,
markdown_render_theme, md_render_code_theme, editor mode, editor theme) is a
member of its catalog, every bounded numeric field (font_size,
editor_font_size, tab_size, max_search_results) lies within its inclusive
range, every shortcut string passes its shortcut-format validator, and
notes_directory passes path-safety validation.  Sanitization is a total
function of the input configuration: it never fails or raises. -/
theorem sanitize_config_establishes_invariants (c : AppConfig) :
    (sanitize_config c).fst.valid = true :=
  sanitize_config_valid_aux c

/-- C2: sanitization is idempotent — applying `sanitize_config` twice yields
the same configuration value as applying it once. -/
theorem sanitize_config_idempotent (c : AppConfig) :
    (sanitize_config (sanitize_config c).fst).fst = (sanitize_config c).fst :=
  config_sanitize_of_valid _ (sanitize_config_valid_aux c)

/-- C3: the default AppConfig is a fixed point of sanitization —
`sanitize_config` leaves every field of `AppConfig.default` unchanged and
emits no validation events. -/
theorem sanitize_config_default_fixed_point :
    sanitize_config AppConfig.default = (AppConfig.default, []) := by decide

/-- C6: fields are corrected independently.  Every governed field of the
sanitized configuration is a function of that field alone: it equals the
input value when that value passes its own test and the corresponding
default otherwise, regardless of every other field.  In particular two
unrelated invalid fields (such as tab_size = 0 and a foreign ui_theme) are
both corrected to their respective defaults, and every field whose current
value is already valid is left unchanged. -/
theorem sanitize_config_fieldwise_independent (c : AppConfig) :
    ((sanitize_config c).fst.notes_directory =
      (if validate_notes_directory c.notes_directory then c.notes_directory else AppConfig.default.notes_directory)) ∧
    ((sanitize_config c).fst.global_shortcut =
      (if validate_shortcut_format c.global_shortcut then c.global_shortcut else AppConfig.default.global_shortcut)) ∧
    ((sanitize_config c).fst.interface.ui_theme =
      (if get_available_ui_themes.contains c.interface.ui_theme then c.interface.ui_theme else AppConfig.default.interface.ui_theme)) ∧
    ((sanitize_config c).fst.interface.markdown_render_theme =
      (if get_available_markdown_themes.contains c.interface.markdown_render_theme then c.interface.markdown_render_theme else AppConfig.default.interface.markdown_render_theme)) ∧
    ((sanitize_config c).fst.interface.md_render_code_theme =
      (if get_available_code_themes.contains c.interface.md_render_code_theme then c.interface.md_render_code_theme else AppConfig.default.interface.md_render_code_theme)) ∧
    ((sanitize_config c).fst.interface.font_size =
      (if validate_font_size c.interface.font_size "UI font size" then c.interface.font_size else AppConfig.default.interface.font_size)) ∧
    ((sanitize_config c).fst.interface.editor_font_size =
      (if validate_font_size c.interface.editor_font_size "Editor font size" then c.interface.editor_font_size else AppConfig.default.interface.editor_font_size)) ∧
    ((sanitize_config c).fst.editor.mode =
      (if get_available_editor_modes.contains c.editor.mode then c.editor.mode else AppConfig.default.editor.mode)) ∧
    ((sanitize_config c).fst.editor.theme =
      (if get_available_editor_themes.contains c.editor.theme then c.editor.theme else AppConfig.default.editor.theme)) ∧
    ((sanitize_config c).fst.editor.tab_size =
      (if c.editor.tab_size = 0 ∨ 16 < c.editor.tab_size then AppConfig.default.editor.tab_size else c.editor.tab_size)) ∧
    ((sanitize_config c).fst.shortcuts.create_note =
      (if validate_basic_shortcut_format c.shortcuts.create_note then c.shortcuts.create_note else AppConfig.default.shortcuts.create_note)) ∧
    ((sanitize_config c).fst.shortcuts.rename_note =
      (if validate_basic_shortcut_format c.shortcuts.rename_note then c.shortcuts.rename_note else AppConfig.default.shortcuts.rename_note)) ∧
    ((sanitize_config c).fst.shortcuts.delete_note =
      (if validate_basic_shortcut_format c.shortcuts.delete_note then c.shortcuts.delete_note else AppConfig.default.shortcuts.delete_note)) ∧
    ((sanitize_config c).fst.shortcuts.edit_note =
      (if validate_basic_shortcut_format c.shortcuts.edit_note then c.shortcuts.edit_note else AppConfig.default.shortcuts.edit_note)) ∧
    ((sanitize_config c).fst.shortcuts.save_and_exit =
      (if validate_basic_shortcut_format c.shortcuts.save_and_exit then c.shortcuts.save_and_exit else AppConfig.default.shortcuts.save_and_exit)) ∧
    ((sanitize_config c).fst.shortcuts.open_external =
      (if validate_basic_shortcut_format c.shortcuts.open_external then c.shortcuts.open_external else AppConfig.default.shortcuts.open_external)) ∧
    ((sanitize_config c).fst.shortcuts.open_folder =
      (if validate_basic_shortcut_format c.shortcuts.open_folder then c.shortcuts.open_folder else AppConfig.default.shortcuts.open_folder)) ∧
    ((sanitize_config c).fst.shortcuts.refresh_cache =
      (if validate_basic_shortcut_format c.shortcuts.refresh_cache then c.shortcuts.refresh_cache else AppConfig.default.shortcuts.refresh_cache)) ∧
    ((sanitize_config c).fst.shortcuts.scroll_up =
      (if validate_basic_shortcut_format c.shortcuts.scroll_up then c.shortcuts.scroll_up else AppConfig.default.shortcuts.scroll_up)) ∧
    ((sanitize_config c).fst.shortcuts.scroll_down =
      (if validate_basic_shortcut_format c.shortcuts.scroll_down then c.shortcuts.scroll_down else AppConfig.default.shortcuts.scroll_down)) ∧
    ((sanitize_config c).fst.shortcuts.up =
      (if validate_basic_shortcut_format c.shortcuts.up then c.shortcuts.up else AppConfig.default.shortcuts.up)) ∧
    ((sanitize_config c).fst.shortcuts.down =
      (if validate_basic_shortcut_format c.shortcuts.down then c.shortcuts.down else AppConfig.default.shortcuts.down)) ∧
    ((sanitize_config c).fst.shortcuts.navigate_previous =
      (if validate_basic_shortcut_format c.shortcuts.navigate_previous then c.shortcuts.navigate_previous else AppConfig.default.shortcuts.navigate_previous)) ∧
    ((sanitize_config c).fst.shortcuts.navigate_next =
      (if validate_basic_shortcut_format c.shortcuts.navigate_next then c.shortcuts.navigate_next else AppConfig.default.shortcuts.navigate_next)) ∧
    ((sanitize_config c).fst.shortcuts.navigate_code_previous =
      (if validate_basic_shortcut_format c.shortcuts.navigate_code_previous then c.shortcuts.navigate_code_previous else AppConfig.default.shortcuts.navigate_code_previous)) ∧
    ((sanitize_config c).fst.shortcuts.navigate_code_next =
      (if validate_basic_shortcut_format c.shortcuts.navigate_code_next then c.shortcuts.navigate_code_next else AppConfig.default.shortcuts.navigate_code_next)) ∧
    ((sanitize_config c).fst.shortcuts.navigate_link_previous =
      (if validate_basic_shortcut_format c.shortcuts.navigate_link_previous then c.shortcuts.navigate_link_previous else AppConfig.default.shortcuts.navigate_link_previous)) ∧
    ((sanitize_config c).fst.shortcuts.navigate_link_next =
      (if validate_basic_shortcut_format c.shortcuts.navigate_link_next then c.shortcuts.navigate_link_next else AppConfig.default.shortcuts.navigate_link_next)) ∧
    ((sanitize_config c).fst.shortcuts.copy_current_section =
      (if validate_basic_shortcut_format c.shortcuts.copy_current_section then c.shortcuts.copy_current_section else AppConfig.default.shortcuts.copy_current_section)) ∧
    ((sanitize_config c).fst.shortcuts.open_settings =
      (if validate_basic_shortcut_format c.shortcuts.open_settings then c.shortcuts.open_settings else AppConfig.default.shortcuts.open_settings)) ∧
    ((sanitize_config c).fst.shortcuts.version_explorer =
      (if validate_basic_shortcut_format c.shortcuts.version_explorer then c.shortcuts.version_explorer else AppConfig.default.shortcuts.version_explorer)) ∧
    ((sanitize_config c).fst.shortcuts.recently_deleted =
      (if validate_basic_shortcut_format c.shortcuts.recently_deleted then c.shortcuts.recently_deleted else AppConfig.default.shortcuts.recently_deleted)) ∧
    ((sanitize_config c).fst.preferences.max_search_results =
      (if c.preferences.max_search_results = 0 ∨ 10000 < c.preferences.max_search_results then AppConfig.default.preferences.max_search_results else c.preferences.max_search_results)) := by
  unfold sanitize_config sanitize_interface_config sanitize_editor_config
    sanitize_shortcuts_config sanitize_preferences_config sanitize_shortcut_field
  repeat' apply And.intro
  all_goals first
    | exact correct_fst_not _ _ _ _
    | exact correct_fst_prop _ _ _ _

/-- C4: for every input text that fails decoding into AppConfig,
`load_config_from_content` returns exactly the full default AppConfig,
emits exactly one parse-failure event (category CONFIG_PARSE carrying the
parse error detail) and zero per-field validation events; the function is
total, so no error surfaces to the caller. -/
theorem load_config_parse_failure_yields_default
    (decode : String → Except String AppConfig) (content e : String)
    (h : decode content = Except.error e) :
    load_config_from_content decode content
      = (AppConfig.default, [parseEvent e]) ∧
    ((load_config_from_content decode content).snd.filter
      (fun ev => ev.category == "CONFIG_PARSE")).length = 1 ∧
    ((load_config_from_content decode content).snd.filter
      (fun ev => ev.category == "CONFIG_VALIDATION")).length = 0 := by
  unfold load_config_from_content
  rw [h]
  refine ⟨rfl, ?_, ?_⟩ <;> rfl

/-- Witness for C4 at a concrete failing decode of an unterminated
section. -/
theorem load_config_parse_failure_yields_default_witness :
    load_config_from_content (fun _ => Except.error "unterminated section")
      "[interface" = (AppConfig.default, [parseEvent "unterminated section"]) :=
  (load_config_parse_failure_yields_default
    (fun _ => Except.error "unterminated section") "[interface"
    "unterminated section" rfl).1

/-- C5 counterexample: `load_config_from_content` does not return the decoded
instance verbatim.  With a decoder producing the structurally well-typed
instance `invalidTabConfig` (tab_size = 0), the returned configuration
differs from the decoded one: sanitization has already replaced the invalid
field before the function returns. -/
theorem load_config_not_verbatim_counterexample :
    (load_config_from_content (fun _ => Except.ok invalidTabConfig)
      "tab_size = 0").fst ≠ invalidTabConfig := by decide

/-- C5 as amended: for every input text that decodes successfully,
`load_config_from_content` returns the decoded instance with
`sanitize_config` applied to it — field values are altered between decoding
and return exactly when sanitization corrects them, and a decoded instance
that is already domain-valid is returned verbatim. -/
theorem load_config_returns_sanitized_decode
    (decode : String → Except String AppConfig) (content : String)
    (cfg : AppConfig) (h : decode content = Except.ok cfg) :
    load_config_from_content decode content = sanitize_config cfg ∧
    (cfg.valid = true →
      (load_config_from_content decode content).fst = cfg) := by
  unfold load_config_from_content
  rw [h]
  exact ⟨rfl, fun hv => config_sanitize_of_valid cfg hv⟩

/-- Witness for the amended C5 at a concrete successful decode of the valid
default instance. -/
theorem load_config_returns_sanitized_decode_witness :
    (load_config_from_content (fun _ => Except.ok AppConfig.default) "").fst
      = AppConfig.default :=
  (load_config_returns_sanitized_decode
    (fun _ => Except.ok AppConfig.default) "" AppConfig.default rfl).2
    (by decide)

/-- C7: on an input whose 22 per-action shortcut fields are all the empty
string, `sanitize_config` resets each of the 22 fields to that field's
individual default and emits exactly 22 validation log events (all with
category CONFIG_VALIDATION); the same holds of the generic per-field routine
`sanitize_shortcuts_config` on the shortcuts section alone. -/
theorem sanitize_all_empty_shortcuts_resets_defaults :
    (sanitize_config allEmptyShortcutsConfig).fst = AppConfig.default ∧
    (sanitize_config allEmptyShortcutsConfig).snd.length = 22 ∧
    (sanitize_config allEmptyShortcutsConfig).snd.all
      (fun ev => ev.category == "CONFIG_VALIDATION") = true ∧
    (sanitize_shortcuts_config allEmptyShortcuts ShortcutsConfig.default).fst
      = ShortcutsConfig.default ∧
    (sanitize_shortcuts_config allEmptyShortcuts
      ShortcutsConfig.default).snd.length = 22 := by decide

/-- C8: max_search_results is sanitized against the inclusive range 1-10000.
Every out-of-range value is replaced with the default 100 together with one
validation event, and every in-range value is left unchanged with no
event. -/
theorem max_search_results_range_sanitized (p : PreferencesConfig) :
    ((p.max_search_results = 0 ∨ 10000 < p.max_search_results) →
      (sanitize_preferences_config p
        AppConfig.default.preferences).fst.max_search_results = 100 ∧
      (sanitize_preferences_config p
        AppConfig.default.preferences).snd.length = 1) ∧
    (1 ≤ p.max_search_results → p.max_search_results ≤ 10000 →
      sanitize_preferences_config p AppConfig.default.preferences
        = (p, [])) := by
  constructor
  · intro hbad
    have hd : decide (p.max_search_results = 0 ∨ 10000 < p.max_search_results)
        = true := by simpa using hbad
    unfold sanitize_preferences_config
    simp [correct, hd, AppConfig.default, PreferencesConfig.default,
      default_max_results]
  · intro h1 h2
    have hd : decide (p.max_search_results = 0 ∨ 10000 < p.max_search_results)
        = false := by simp; omega
    unfold sanitize_preferences_config
    simp [correct, hd]

/-- Witness for C8 at the concrete out-of-range value 50000. -/
theorem max_search_results_range_sanitized_witness :
    (sanitize_preferences_config ⟨50000⟩
      AppConfig.default.preferences).fst.max_search_results = 100 ∧
    (sanitize_preferences_config ⟨50000⟩
      AppConfig.default.preferences).snd.length = 1 :=
  (max_search_results_range_sanitized ⟨50000⟩).1 (by decide)

/-- C9: `get_config_content` returns the raw on-disk text whenever the file
read succeeds, returns the freshly generated default template whenever the
read fails (in particular when no file exists), and never returns the error
variant of its Result for any file-system outcome. -/
theorem get_config_content_total (readResult : Except String String) :
    (∀ s, readResult = Except.ok s →
      get_config_content readResult = Except.ok s) ∧
    (∀ e, readResult = Except.error e →
      get_config_content readResult = Except.ok generate_config_template) ∧
    (∀ e, get_config_content readResult ≠ Except.error e) := by
  refine ⟨fun s h => ?_, fun e h => ?_, fun e => ?_⟩
  · rw [h]; rfl
  · rw [h]; rfl
  · cases readResult <;> simp [get_config_content]

/-- Witness for C9 at a concrete failing read. -/
theorem get_config_content_total_witness :
    get_config_content (Except.error "no such file")
      = Except.ok generate_config_template :=
  (get_config_content_total (Except.error "no such file")).2.1
    "no such file" rfl

/-- C10: `save_current_frontmost_app` never stores this process's own PID
and never clears an existing saved value.  When the OS reports this process
itself as frontmost (or reports no frontmost application), the saved cell is
left unchanged, preserving the prior restoration target; only a frontmost
PID different from the process's own overwrites the cell. -/
theorem save_frontmost_preserves_on_self (prev_pid frontmost_pid : Option Int)
    (our_pid : Int) :
    (frontmost_pid = some our_pid →
      save_current_frontmost_app prev_pid frontmost_pid our_pid = prev_pid) ∧
    (frontmost_pid = none →
      save_current_frontmost_app prev_pid frontmost_pid our_pid = prev_pid) ∧
    (∀ p, p ≠ our_pid → frontmost_pid = some p →
      save_current_frontmost_app prev_pid frontmost_pid our_pid = some p) ∧
    (save_current_frontmost_app prev_pid frontmost_pid our_pid = none →
      prev_pid = none) ∧
    (save_current_frontmost_app prev_pid frontmost_pid our_pid = some our_pid →
      prev_pid = some our_pid) := by
  unfold save_current_frontmost_app
  cases frontmost_pid with
  | none => simp
  | some pid =>
    by_cases h : pid = our_pid <;> simp [h]
    exact fun p hp he => absurd he.symm hp

/-- Witness for C10: a rapid toggle where this process (PID 42) is already
frontmost leaves the saved previous PID 7 untouched. -/
theorem save_frontmost_preserves_on_self_witness :
    save_current_frontmost_app (some 7) (some 42) 42 = some 7 :=
  (save_frontmost_preserves_on_self (some 7) (some 42) 42).1 rfl
